import Mathlib

/-!
Verification of the Stream_collector pipeline (HLS playlist parser,
validation engine, retry controller) against its natural-language
specification.  Each Python source function is shallowly embedded as an
executable Lean definition; machine floats are modelled as exact
rationals, probe/process results as explicit input data, and formatted
diagnostic strings as inductive message values carrying their numeric
payloads.
-/

set_option maxHeartbeats 1000000
set_option maxRecDepth 10000

/-- Python `abs()` on a rational number. -/
def ratAbs (q : ℚ) : ℚ := if q < 0 then -q else q

theorem ratAbs_eq_abs (q : ℚ) : ratAbs q = |q| := by
  unfold ratAbs
  split
  · exact (abs_of_neg (by assumption)).symm
  · next h => exact (abs_of_nonneg (le_of_not_lt h)).symm

namespace ContinuousValidator

/-- One stream record as reported by the media prober
(`ffprobe -show_streams`): its `codec_type` tag, codec name and duration
(`float(stream.get('duration', 0))` is modelled as an exact rational). -/
structure StreamRec where
  codec_type : String
  codec_name : String
  duration : ℚ
deriving DecidableEq, Repr

/-- Probe output consumed by `check_audio_video_sync`
(`get_video_info`): the list of streams. -/
structure ProbeInfo where
  streams : List StreamRec
deriving DecidableEq, Repr

/-- Diagnostic messages emitted by `continuous_validator.py`.  The Python
code stores formatted strings; each constructor mirrors one message
template and carries the numbers interpolated into it. -/
inductive Msg where
  | failedInfo
  | noVideoStream
  | noAudioStream
  | syncMismatch (diff : ℚ)
  | minorSync (diff : ℚ)
  | unusualAudioCodec (codec : String)
  | corruptionDetected (count : Nat)
  | corruptionLine (line : String)
  | noFrames
  | highPacketRatio (r : ℚ)
  | frameCountMismatch (expected : ℤ) (got : Nat)
  | frameCheckFailed
  | noAudioForContinuity
  | audioDurMismatch (diff : ℚ)
  | lowSampleRate (rate : Nat)
  | noChannels
  | audioCheckFailed
  | infoFailed
deriving DecidableEq, Repr

/-- One named check result: the `valid` flag and the `issues` and
`warnings` lists every check dictionary carries. -/
structure CheckRes where
  valid : Bool
  issues : List Msg
  warnings : List Msg
deriving DecidableEq, Repr

/-- Embedding of `ContinuousValidator.check_audio_video_sync`: missing
probe info is a hard failure; otherwise a missing video or audio stream
is an issue, a duration difference above 2.0 s is an issue, above 0.5 s
a warning, and unusual audio codecs are warnings.  `valid` is
`len(issues) == 0`. -/
def check_audio_video_sync (info : Option ProbeInfo) : CheckRes :=
  match info with
  | none => { valid := false, issues := [Msg.failedInfo], warnings := [] }
  | some i =>
    let video_streams := i.streams.filter (fun s => s.codec_type = "video")
    let audio_streams := i.streams.filter (fun s => s.codec_type = "audio")
    let issues0 : List Msg :=
      (if video_streams.isEmpty then [Msg.noVideoStream] else []) ++
      (if audio_streams.isEmpty then [Msg.noAudioStream] else [])
    let syncPart : List Msg × List Msg :=
      match video_streams, audio_streams with
      | v :: _, a :: _ =>
        let duration_diff := ratAbs (v.duration - a.duration)
        if duration_diff > 2 then ([Msg.syncMismatch duration_diff], [])
        else if duration_diff > 1/2 then ([], [Msg.minorSync duration_diff])
        else ([], [])
      | _, _ => ([], [])
    let codecWarnings : List Msg :=
      audio_streams.filterMap (fun a =>
        if a.codec_name ∈ ["aac", "mp3", "opus", "vorbis"] then none
        else some (Msg.unusualAudioCodec a.codec_name))
    let issues := issues0 ++ syncPart.1
    let warnings := syncPart.2 ++ codecWarnings
    { valid := issues.isEmpty, issues := issues, warnings := warnings }

/-- Embedding of `ContinuousValidator.check_video_corruption` on the
decode process result: exit code and the error stream split into
non-blank lines.  A clean exit with empty error output is valid;
otherwise the error-line count plus the first five lines become issues. -/
def check_video_corruption (returncode : ℤ) (error_output : String) : CheckRes :=
  let error_lines := (error_output.splitOn "\n").filter (fun l => l.trim ≠ "")
  if returncode = 0 ∧ error_output = "" then
    { valid := true, issues := [], warnings := [] }
  else
    let issues :=
      if error_lines.isEmpty then []
      else Msg.corruptionDetected error_lines.length ::
        (error_lines.take 5).map Msg.corruptionLine
    { valid := false, issues := issues, warnings := [] }

/-- Frame-probe fields used by `check_frame_continuity`; the probed
`avg_frame_rate` string `num/den` is modelled as the two parsed
integers. -/
structure FrameProbe where
  nb_frames : Nat
  nb_read_packets : Nat
  duration : ℚ
  avg_num : ℤ
  avg_den : ℤ
deriving DecidableEq, Repr

/-- Python `int()` truncation toward zero on a rational. -/
def pyInt (q : ℚ) : ℤ := if 0 ≤ q then ⌊q⌋ else ⌈q⌉

/-- Embedding of `ContinuousValidator.check_frame_continuity`; `none`
models a non-zero ffprobe exit.  Zero frames is an issue; a high
packet/frame ratio or a frame-count deviation above 5 % of the expected
count is a warning. -/
def check_frame_continuity (res : Option FrameProbe) : CheckRes :=
  match res with
  | none => { valid := false, issues := [Msg.frameCheckFailed], warnings := [] }
  | some f =>
    let issues : List Msg := if f.nb_frames = 0 then [Msg.noFrames] else []
    let ratioWarn : List Msg :=
      if f.nb_frames > 0 ∧ f.nb_read_packets > 0 then
        let packet_frame_ratio : ℚ := (f.nb_read_packets : ℚ) / (f.nb_frames : ℚ)
        if packet_frame_ratio > 3/2 then [Msg.highPacketRatio packet_frame_ratio] else []
      else []
    let fpsWarn : List Msg :=
      if f.avg_den > 0 then
        let fps : ℚ := (f.avg_num : ℚ) / (f.avg_den : ℚ)
        let expected_frames : ℤ := pyInt (f.duration * fps)
        if expected_frames > 0 then
          let frame_diff_pct : ℚ :=
            ratAbs ((f.nb_frames : ℚ) - (expected_frames : ℚ)) / (expected_frames : ℚ) * 100
          if frame_diff_pct > 5 then [Msg.frameCountMismatch expected_frames f.nb_frames]
          else []
        else []
      else []
    { valid := issues.isEmpty, issues := issues, warnings := ratioWarn ++ fpsWarn }

/-- Audio-stream fields used by `check_audio_continuity`. -/
structure AudioStreamRec where
  codec_name : String
  sample_rate : Nat
  channels : ℤ
  duration : ℚ
deriving DecidableEq, Repr

/-- Probe output of the audio-continuity command: audio streams plus the
container format duration. -/
structure AudioProbe where
  streams : List AudioStreamRec
  format_duration : ℚ
deriving DecidableEq, Repr

/-- Embedding of `ContinuousValidator.check_audio_continuity`; `none`
models a non-zero ffprobe exit.  No stream is an issue; a duration
mismatch above 1 s or a sample rate below 44100 Hz is a warning; fewer
than one channel is an issue. -/
def check_audio_continuity (res : Option AudioProbe) : CheckRes :=
  match res with
  | none => { valid := false, issues := [Msg.audioCheckFailed], warnings := [] }
  | some p =>
    match p.streams with
    | [] => { valid := false, issues := [Msg.noAudioForContinuity], warnings := [] }
    | audio :: _ =>
      let durWarn : List Msg :=
        if audio.duration > 0 ∧ p.format_duration > 0 then
          let duration_diff := ratAbs (audio.duration - p.format_duration)
          if duration_diff > 1 then [Msg.audioDurMismatch duration_diff] else []
        else []
      let rateWarn : List Msg :=
        if audio.sample_rate < 44100 then [Msg.lowSampleRate audio.sample_rate] else []
      let issues : List Msg := if audio.channels < 1 then [Msg.noChannels] else []
      { valid := issues.isEmpty, issues := issues, warnings := durWarn ++ rateWarn }

/-- The summary block computed at the end of
`ContinuousValidator.comprehensive_validation`. -/
structure Summary where
  all_tests_passed : Bool
  total_issues : Nat
  total_warnings : Nat
deriving DecidableEq, Repr

/-- Embedding of the summary computation (`all_valid`, `total_issues`,
`total_warnings`) over the named tests dictionary. -/
def summarize (tests : List (String × CheckRes)) : Summary :=
  { all_tests_passed := tests.all (fun t => t.2.valid)
    total_issues := (tests.map (fun t => t.2.issues.length)).sum
    total_warnings := (tests.map (fun t => t.2.warnings.length)).sum }

/-- Full validation result: the named tests and their summary. -/
structure ValidationRun where
  tests : List (String × CheckRes)
  summary : Summary
deriving DecidableEq, Repr

/-- Embedding of `ContinuousValidator.comprehensive_validation`: the
probe/tool results for each of the five tests are explicit inputs; a
failed info probe contributes a failing `info` entry, and the four
checks always run and are aggregated by `summarize`. -/
def comprehensive_validation (info : Option ProbeInfo)
    (corr_rc : ℤ) (corr_stderr : String)
    (frame : Option FrameProbe) (audio : Option AudioProbe) : ValidationRun :=
  let infoTest : List (String × CheckRes) :=
    match info with
    | none => [("info", { valid := false, issues := [Msg.infoFailed], warnings := [] })]
    | some _ => []
  let tests := infoTest ++
    [("sync", check_audio_video_sync info),
     ("corruption", check_video_corruption corr_rc corr_stderr),
     ("frames", check_frame_continuity frame),
     ("audio", check_audio_continuity audio)]
  { tests := tests, summary := summarize tests }

/-- Projection of a check result forgetting its warnings, used to state
that warnings cannot influence the aggregate verdict. -/
def dropWarnings (t : String × CheckRes) : String × Bool × List Msg :=
  (t.1, t.2.valid, t.2.issues)

end ContinuousValidator

namespace VideoValidator

/-- One probed stream as consumed by
`VideoValidator.validate_video_streams`: its `codec_type`, codec name
and the `attached_pic` disposition flag. -/
structure VStream where
  codec_type : String
  codec_name : String
  attached_pic : Bool
deriving DecidableEq, Repr

/-- Diagnostic messages of `video_validator.py`, one constructor per
formatted string template. -/
inductive Msg where
  | noStreams
  | unusualVideoCodec (codec : String)
  | attachedPicWarning
  | unusualAudioCodec (codec : String)
  | noVideoStream
  | noAudioStream
  | noFormatInfo
  | durationZeroOrNegative
  | durationMismatch (expected actual : ℚ)
  | durationSlightlyOff (expected actual : ℚ)
  | veryShort (actual : ℚ)
deriving DecidableEq, Repr

/-- Stream-check result: the `valid` flag, which streams were found, and
the accumulated issue and warning lists. -/
structure StreamCheck where
  valid : Bool
  has_video : Bool
  has_audio : Bool
  issues : List Msg
  warnings : List Msg
deriving DecidableEq, Repr

/-- Embedding of `VideoValidator.validate_video_streams`: `none` models
a probe dictionary without a `streams` key.  Unusual codecs and an
attached-picture disposition are warnings; a missing video stream is an
issue while a missing audio stream is only a warning.  `valid` is
`len(issues) == 0`. -/
def validate_video_streams (streams : Option (List VStream)) : StreamCheck :=
  match streams with
  | none =>
    { valid := false, has_video := false, has_audio := false,
      issues := [Msg.noStreams], warnings := [] }
  | some ss =>
    let has_video := ss.any (fun s => s.codec_type = "video")
    let has_audio := ss.any (fun s => s.codec_type = "audio")
    let codecWarnings : List Msg := ss.flatMap (fun s =>
      if s.codec_type = "video" then
        (if s.codec_name ∈ ["h264", "hevc", "h265", "vp9", "av1"] then []
         else [Msg.unusualVideoCodec s.codec_name]) ++
        (if s.attached_pic then [Msg.attachedPicWarning] else [])
      else if s.codec_type = "audio" then
        if s.codec_name ∈ ["aac", "mp3", "ac3", "eac3", "opus"] then []
        else [Msg.unusualAudioCodec s.codec_name]
      else [])
    let issues : List Msg := if has_video then [] else [Msg.noVideoStream]
    let warnings := codecWarnings ++ (if has_audio then [] else [Msg.noAudioStream])
    { valid := issues.isEmpty, has_video := has_video, has_audio := has_audio,
      issues := issues, warnings := warnings }

/-- Duration-check result of `VideoValidator.validate_duration`. -/
structure DurationCheck where
  valid : Bool
  actual_duration : ℚ
  issues : List Msg
  warnings : List Msg
deriving DecidableEq, Repr

/-- Embedding of `VideoValidator.validate_duration`: `format_duration =
none` models a probe dictionary without a `format` key (inside the
dictionary the `duration` default is 0, so a present format with a
missing duration is `some 0`).  A non-positive actual duration is an
immediate issue; with a truthy expected duration, a deviation beyond
the percentage tolerance is an issue and beyond half the tolerance a
warning; durations under 60 s draw a warning. -/
def validate_duration (format_duration : Option ℚ) (expected_duration : Option ℚ)
    (tolerance_percent : ℚ := 5) : DurationCheck :=
  match format_duration with
  | none => { valid := false, actual_duration := 0, issues := [Msg.noFormatInfo], warnings := [] }
  | some actual =>
    if actual ≤ 0 then
      { valid := false, actual_duration := actual,
        issues := [Msg.durationZeroOrNegative], warnings := [] }
    else
      let expectedPart : List Msg × List Msg :=
        match expected_duration with
        | some e =>
          if e ≠ 0 then
            let tolerance := e * (tolerance_percent / 100)
            let duration_diff := ratAbs (actual - e)
            if duration_diff > tolerance then ([Msg.durationMismatch e actual], [])
            else if duration_diff > tolerance / 2 then ([], [Msg.durationSlightlyOff e actual])
            else ([], [])
          else ([], [])
        | none => ([], [])
      let shortWarn : List Msg := if actual < 60 then [Msg.veryShort actual] else []
      let issues := expectedPart.1
      let warnings := expectedPart.2 ++ shortWarn
      { valid := issues.isEmpty, actual_duration := actual,
        issues := issues, warnings := warnings }

end VideoValidator

namespace HotstarDownloader

/-- One probed stream as consumed by
`HotstarDownloader.validate_merged_file`. -/
structure MStream where
  codec_type : String
  codec_name : String
  duration : ℚ
deriving DecidableEq, Repr

/-- Probe output of the merged-file validation: the stream list and the
container format duration (`float(format.get('duration', 0))`). -/
structure MergedProbe where
  streams : List MStream
  format_duration : ℚ
deriving DecidableEq, Repr

/-- Diagnostic messages of `validate_merged_file`. -/
inductive MergedMsg where
  | ffprobeFailed
  | noVideoStream
  | syncIssue (video_duration audio_duration : ℚ)
  | fileTooShort (total_duration : ℚ)
deriving DecidableEq, Repr

/-- Result dictionary of `validate_merged_file`. -/
structure MergedValidation where
  valid : Bool
  issues : List MergedMsg
  audio_count : Nat
  duration : ℚ
deriving DecidableEq, Repr

/-- Embedding of `HotstarDownloader.validate_merged_file`: `none` models
a non-zero ffprobe exit.  The loop keeps the last video stream and all
audio streams; a missing video stream is an issue, zero audio streams is
deliberately accepted without any issue (audio may be embedded), a
video/audio duration gap above 1 s is an issue, and a total duration
under 1 s is an issue.  `valid` is `len(issues) == 0`. -/
def validate_merged_file (probe : Option MergedProbe) : MergedValidation :=
  match probe with
  | none => { valid := false, issues := [MergedMsg.ffprobeFailed], audio_count := 0, duration := 0 }
  | some p =>
    let video_stream := (p.streams.filter (fun s => s.codec_type = "video")).getLast?
    let audio_streams := p.streams.filter (fun s => s.codec_type = "audio")
    let videoIssue : List MergedMsg :=
      match video_stream with
      | none => [MergedMsg.noVideoStream]
      | some _ => []
    let syncIssue : List MergedMsg :=
      match video_stream, audio_streams with
      | some v, a :: _ =>
        if ratAbs (v.duration - a.duration) > 1 then [MergedMsg.syncIssue v.duration a.duration]
        else []
      | _, _ => []
    let total_duration := p.format_duration
    let shortIssue : List MergedMsg :=
      if total_duration < 1 then [MergedMsg.fileTooShort total_duration] else []
    let issues := videoIssue ++ syncIssue ++ shortIssue
    { valid := issues.isEmpty, issues := issues,
      audio_count := audio_streams.length, duration := total_duration }

end HotstarDownloader

namespace HotstarDownloader

/-- Drop a literal character sequence from the front of a character
list, returning the remainder on success. -/
def dropLit : List Char → List Char → Option (List Char)
  | [], s => some s
  | _, [] => none
  | p :: ps, c :: cs => if p = c then dropLit ps cs else none

/-- Model of `re.search(key + r"(\d+)", s)`: scan left to right for the
first position where the literal key is followed by at least one digit
and return the maximal digit run captured there. -/
def searchDigits (key : List Char) : List Char → Option (List Char)
  | [] => none
  | c :: cs =>
    match dropLit key (c :: cs) with
    | some rest =>
      let ds := rest.takeWhile Char.isDigit
      if ds.isEmpty then searchDigits key cs else some ds
    | none => searchDigits key cs

/-- Model of `re.search(key + "([^\"]+)\"", s)` where the key ends with
the opening quote: the greedy non-quote run must be non-empty and be
closed by a quote for the position to match. -/
def searchQuoted (key : List Char) : List Char → Option (List Char)
  | [] => none
  | c :: cs =>
    match dropLit key (c :: cs) with
    | some rest =>
      let body := rest.takeWhile (fun ch => ch ≠ '"')
      let after := rest.dropWhile (fun ch => ch ≠ '"')
      if ¬ body.isEmpty ∧ ¬ after.isEmpty then some body else searchQuoted key cs
    | none => searchQuoted key cs

/-- Model of `re.search(r"RESOLUTION=(\d+x\d+)", s)`. -/
def searchRes : List Char → Option (List Char)
  | [] => none
  | c :: cs =>
    match dropLit ("RESOLUTION=".data) (c :: cs) with
    | some rest =>
      let d1 := rest.takeWhile Char.isDigit
      if d1.isEmpty then searchRes cs
      else
        match rest.drop d1.length with
        | 'x' :: rest2 =>
          let d2 := rest2.takeWhile Char.isDigit
          if d2.isEmpty then searchRes cs else some (d1 ++ 'x' :: d2)
        | _ => searchRes cs
    | none => searchRes cs

/-- Model of `re.search(r"FRAME-RATE=([\d.]+)", s)`: the captured token
is the maximal run of digits and dots after the key. -/
def searchFrac (key : List Char) : List Char → Option (List Char)
  | [] => none
  | c :: cs =>
    match dropLit key (c :: cs) with
    | some rest =>
      let tok := rest.takeWhile (fun ch => ch.isDigit ∨ ch = '.')
      if tok.isEmpty then searchFrac key cs else some tok
    | none => searchFrac key cs

/-- Decimal value of a digit run, as produced by Python `int()`. -/
def digitsToNat (ds : List Char) : Nat :=
  ds.foldl (fun n c => n * 10 + (c.toNat - '0'.toNat)) 0

/-- Model of Python `float()` applied to a token drawn from the
`[\d.]+` alphabet: digit runs and runs with a single dot parse to their
exact rational value; anything else (a bare dot, several dots) raises,
modelled as `none`. -/
def pyFloatOfToken (cs : List Char) : Option ℚ :=
  let intPart := cs.takeWhile Char.isDigit
  match cs.drop intPart.length with
  | [] => if cs.isEmpty then none else some (digitsToNat intPart : ℚ)
  | '.' :: frac =>
    if frac.all Char.isDigit ∧ ¬ (intPart.isEmpty ∧ frac.isEmpty) then
      some ((digitsToNat intPart : ℚ) + (digitsToNat frac : ℚ) / (10 : ℚ) ^ frac.length)
    else none
  | _ => none

/-- Model of Python `content.split(sep)` for a single separator
character: every occurrence splits, empty pieces are kept. -/
def splitOnChar (sep : Char) : List Char → List (List Char)
  | [] => [[]]
  | c :: cs =>
    if c = sep then [] :: splitOnChar sep cs
    else
      match splitOnChar sep cs with
      | l :: ls => (c :: l) :: ls
      | [] => [[c]]

/-- The whitespace characters Python `str.strip()` removes (the ASCII
ones, which are the only ones occurring in playlists). -/
def isPySpace (c : Char) : Bool :=
  c = ' ' ∨ c = '\t' ∨ c = '\n' ∨ c = '\r' ∨ c = '\x0b' ∨ c = '\x0c'

/-- Model of Python `str.strip()`. -/
def pyStrip (cs : List Char) : List Char :=
  ((cs.dropWhile isPySpace).reverse.dropWhile isPySpace).reverse

/-- Model of Python `str.startswith(pre)`. -/
def startsWithChars (pre s : List Char) : Bool := (dropLit pre s).isSome

/-- Modelled from the spec: relative URL resolution is delegated to the
Python standard library (`urllib.parse.urljoin`), which is outside this
repository; per the spec it resolves a relative reference against the
base URL's directory, here the base truncated after its last slash
followed by the reference. -/
def urljoin (base rel : List Char) : List Char :=
  ((base.reverse.dropWhile (fun c => c ≠ '/')).reverse) ++ rel

/-- One declared audio rendition parsed from an `#EXT-X-MEDIA` line. -/
structure AudioTrack where
  url : String
  group_id : String
  name : String
  language : String
deriving DecidableEq, Repr

/-- One quality variant parsed from an `#EXT-X-STREAM-INF` line
followed by its URL. -/
structure Variant where
  url : String
  bandwidth : Nat
  resolution : String
  codecs : String
  frame_rate : ℚ
  audio_tracks : List AudioTrack
deriving DecidableEq, Repr

/-- First pass of `parse_master_playlist`: collect the audio-track
declarations.  A line without a `URI` attribute yields no track; the
`GROUP-ID`, `NAME` and `LANGUAGE` attributes fall back to `"audio"`,
`"Unknown"` and `"und"`. -/
def extractAudioTracks (base_url : List Char) (lines : List (List Char)) : List AudioTrack :=
  lines.filterMap (fun line =>
    if startsWithChars ("#EXT-X-MEDIA:TYPE=AUDIO".data) line then
      match searchQuoted ("URI=\"".data) line with
      | none => none
      | some uri =>
        let audio_url := if startsWithChars ("http".data) uri then uri
          else urljoin base_url uri
        some
          { url := String.mk audio_url
            group_id := match searchQuoted ("GROUP-ID=\"".data) line with
              | some g => String.mk g
              | none => "audio"
            name := match searchQuoted ("NAME=\"".data) line with
              | some n => String.mk n
              | none => "Unknown"
            language := match searchQuoted ("LANGUAGE=\"".data) line with
              | some l => String.mk l
              | none => "und" }
    else none)

/-- Attribute extraction for one `#EXT-X-STREAM-INF` line paired with
its (already stripped, non-comment) URL line: every missing attribute
takes its default (`bandwidth 0`, `resolution "unknown"`, `codecs
"unknown"`, `frame rate 25.0`), and the audio group reference selects
the matching declared tracks, falling back to the first declared track.
The result is `none` exactly when a present `FRAME-RATE` token makes
Python `float()` raise. -/
def mkVariant (audio_tracks : List AudioTrack) (base_url line variant_url0 : List Char) :
    Option Variant :=
  let variant_url := if startsWithChars ("http".data) variant_url0 then variant_url0
    else urljoin base_url variant_url0
  let matching_audio : List AudioTrack :=
    match searchQuoted ("AUDIO=\"".data) line with
    | some g => audio_tracks.filter (fun a => a.group_id = String.mk g)
    | none => []
  let fr : Option ℚ :=
    match searchFrac ("FRAME-RATE=".data) line with
    | none => some 25
    | some tok => pyFloatOfToken tok
  match fr with
  | none => none
  | some frv =>
    some
      { url := String.mk variant_url
        bandwidth := match searchDigits ("BANDWIDTH=".data) line with
          | some ds => digitsToNat ds
          | none => 0
        resolution := match searchRes line with
          | some r => String.mk r
          | none => "unknown"
        codecs := match searchQuoted ("CODECS=\"".data) line with
          | some c => String.mk c
          | none => "unknown"
        frame_rate := frv
        audio_tracks := if matching_audio.isEmpty then audio_tracks.take 1
          else matching_audio }

/-- Second pass of `parse_master_playlist`: each `#EXT-X-STREAM-INF`
line is paired with the immediately following line; the pair emits a
variant only when that next line, stripped, is non-empty and not a
comment, otherwise the declaration is dropped and scanning continues. -/
def extractVariants (audio_tracks : List AudioTrack) (base_url : List Char) :
    List (List Char) → Option (List Variant)
  | [] => some []
  | line :: rest =>
    if startsWithChars ("#EXT-X-STREAM-INF:".data) line then
      match rest with
      | [] => some []
      | nxt :: _ =>
        let variant_url := pyStrip nxt
        if variant_url ≠ [] ∧ ¬ startsWithChars ("#".data) variant_url then
          match mkVariant audio_tracks base_url line variant_url with
          | none => none
          | some v => (extractVariants audio_tracks base_url rest).map (fun vs => v :: vs)
        else extractVariants audio_tracks base_url rest
    else extractVariants audio_tracks base_url rest

/-- Stable descending insertion by bandwidth: an element passes over a
list head only when that head has strictly larger bandwidth, so equal
bandwidths keep their relative order. -/
def insertDesc (v : Variant) : List Variant → List Variant
  | [] => [v]
  | w :: ws => if w.bandwidth ≤ v.bandwidth then v :: w :: ws else w :: insertDesc v ws

/-- Model of Python's stable `variants.sort(key=lambda x:
x['bandwidth'], reverse=True)`. -/
def sortByBandwidthDesc (l : List Variant) : List Variant := l.foldr insertDesc []

/-- Clearing a variant's audio-track list, as done when the playlist
declared no audio tracks at all. -/
def clearAudio (v : Variant) : Variant := { v with audio_tracks := [] }

/-- Final fix-up of `parse_master_playlist`: when no audio tracks were
declared at all, every variant's `audio_tracks` is set to the empty
list. -/
def finalizeAudio (audio_tracks : List AudioTrack) (variants : List Variant) : List Variant :=
  if audio_tracks.isEmpty then variants.map clearAudio
  else variants

/-- Embedding of `HotstarDownloader.parse_master_playlist`: split into
lines, collect audio tracks, collect variants, sort by descending
bandwidth, clear audio lists when none were declared.  `none` models the
`float()` exception escaping the function. -/
def parse_master_playlist (content base_url : String) : Option (List Variant) :=
  let lines := splitOnChar '\n' content.data
  let audio_tracks := extractAudioTracks base_url.data lines
  (extractVariants audio_tracks base_url.data lines).map
    (fun vs => finalizeAudio audio_tracks (sortByBandwidthDesc vs))

/-- The same pipeline without the sort, giving the variants in original
playlist order; used to state that the sort is stable. -/
def parsedUnsorted (content base_url : String) : Option (List Variant) :=
  let lines := splitOnChar '\n' content.data
  let audio_tracks := extractAudioTracks base_url.data lines
  (extractVariants audio_tracks base_url.data lines).map (finalizeAudio audio_tracks)

/-- One audio-track acquisition as seen by `download_with_ffmpeg`: the
track's language tag and the acquisition tool's exit code. -/
structure AudioDl where
  language : String
  exit_code : ℤ
deriving DecidableEq, Repr

/-- Outcome of the separate-audio branch of `download_with_ffmpeg`:
whether it reported success, which audio tracks were handed to the
remux step, and whether the remux step was reached at all. -/
structure SepResult where
  succeeded : Bool
  merged_audio : List String
  merge_attempted : Bool
deriving DecidableEq, Repr

/-- Embedding of the separate-audio branch of
`HotstarDownloader.download_with_ffmpeg`: a non-zero video exit aborts
the attempt before any merge; audio tracks are acquired sequentially and
only those with exit code 0 are appended to `temp_audio_files` and thus
merged, a failing track being logged and dropped; after a successful
merge the result of `validate_merged_file` decides success. -/
def download_with_ffmpeg_separate (video_exit : ℤ) (audio_results : List AudioDl)
    (merge_exit : ℤ) (merge_probe : Option MergedProbe) : SepResult :=
  if video_exit ≠ 0 then
    { succeeded := false, merged_audio := [], merge_attempted := false }
  else
    let temp_audio_files := (audio_results.filter (fun a => a.exit_code = 0)).map
      (fun a => a.language)
    if merge_exit ≠ 0 then
      { succeeded := false, merged_audio := temp_audio_files, merge_attempted := true }
    else
      { succeeded := (validate_merged_file merge_probe).valid,
        merged_audio := temp_audio_files, merge_attempted := true }

end HotstarDownloader

namespace AutoTester

/-- Outcome of one download attempt as observed by
`AutoTester.run_test_cycle`: the downloader process failed, it succeeded
but no artifact could be located, or an artifact (identified by its
filename stem) was produced and validation failed or passed. -/
inductive AttemptOutcome where
  | downloadFailed
  | noArtifact
  | validationFailed (stem : String)
  | validationPassed (stem : String)
deriving DecidableEq, Repr

/-- The rename applied to a failed attempt's artifact
(`video_path.stem + "_FAILED_attempt{n}" + video_path.suffix`). -/
def renameFailed (stem : String) (attempt : Nat) : String :=
  stem ++ "_FAILED_attempt" ++ toString attempt ++ ".mp4"

/-- The artifact name an attempt writes before any rename. -/
def artifactName (stem : String) : String := stem ++ ".mp4"

/-- State after the retry loop terminates: the success flag returned by
`run_test_cycle`, the download directory contents, and the number of
attempts performed. -/
structure CycleResult where
  success : Bool
  disk : List String
  attempts : Nat
deriving DecidableEq, Repr

/-- Loop body of `AutoTester.run_test_cycle`: `n` is the current attempt
number and the list holds the outcomes of the attempts still to run (so
an empty tail means `attempt == max_retries`).  A failed download or a
missing artifact retries unless this was the last attempt; a passing
validation returns success immediately; a failing validation renames the
artifact with the attempt number embedded and retries unless this was
the last attempt, in which case the artifact keeps its original name. -/
def runCycleAux (n : Nat) : List AttemptOutcome → List String → CycleResult
  | [], disk => { success := false, disk := disk, attempts := n - 1 }
  | o :: rest, disk =>
    match o with
    | AttemptOutcome.downloadFailed =>
      if rest.isEmpty then { success := false, disk := disk, attempts := n }
      else runCycleAux (n + 1) rest disk
    | AttemptOutcome.noArtifact =>
      if rest.isEmpty then { success := false, disk := disk, attempts := n }
      else runCycleAux (n + 1) rest disk
    | AttemptOutcome.validationPassed stem =>
      { success := true, disk := disk ++ [artifactName stem], attempts := n }
    | AttemptOutcome.validationFailed stem =>
      if rest.isEmpty then
        { success := false, disk := disk ++ [artifactName stem], attempts := n }
      else runCycleAux (n + 1) rest (disk ++ [renameFailed stem n])

/-- Embedding of `AutoTester.run_test_cycle` with `max_retries =
outcomes.length`: the loop runs `attempt = 1 .. max_retries` over the
given attempt outcomes starting from an empty download directory. -/
def run_test_cycle (outcomes : List AttemptOutcome) : CycleResult :=
  runCycleAux 1 outcomes []

/-- Process exit code of the `auto_test_redownload.py` entry point:
`sys.exit(0 if success else 1)`. -/
def exitCode (outcomes : List AttemptOutcome) : Nat :=
  if (run_test_cycle outcomes).success then 0 else 1

/-- Whether an attempt outcome is a fully passing validation. -/
def isPassed : AttemptOutcome → Bool
  | AttemptOutcome.validationPassed _ => true
  | _ => false

/-- Final directory contents after a run in which every attempt produced
an artifact that failed validation: every artifact except the last is
renamed with its attempt number, and the last keeps its original name. -/
def failedDisk (n : Nat) : List String → List String
  | [] => []
  | [s] => [artifactName s]
  | s :: s2 :: rest => renameFailed s n :: failedDisk (n + 1) (s2 :: rest)

/-- Whether a character list contains the failed-attempt rename marker
as an infix. -/
def hasMarker : List Char → Bool
  | [] => false
  | c :: cs =>
    match HotstarDownloader.dropLit ("_FAILED_attempt".data) (c :: cs) with
    | some _ => true
    | none => hasMarker cs

/-- Whether a filename carries the failed-attempt rename marker. -/
def isRenamedName (s : String) : Bool := hasMarker s.data

end AutoTester

section ContinuousValidatorProofs

open ContinuousValidator

/-- The aggregate flag computed by `summarize` depends only on the
constituent `valid` flags and issue lists, never on the warnings. -/
theorem summarize_ignores_warnings : ∀ ts ts2 : List (String × CheckRes),
    ts.map dropWarnings = ts2.map dropWarnings →
    (summarize ts).all_tests_passed = (summarize ts2).all_tests_passed
  | [], [], _ => rfl
  | [], _ :: _, h => by simp at h
  | _ :: _, [], h => by simp at h
  | a :: ts, b :: ts2, h => by
    simp only [List.map_cons, List.cons.injEq] at h
    have h1 : a.2.valid = b.2.valid := by
      have := congrArg (fun x : String × Bool × List Msg => x.2.1) h.1
      simpa [dropWarnings] using this
    have h2 := summarize_ignores_warnings ts ts2 h.2
    simp only [summarize, List.all_cons] at h2 ⊢
    rw [h1, h2]

/-- C1: for every validation run, the aggregate verdict
`all_tests_passed` equals the conjunction of the constituent checks'
`valid` flags, and the aggregate flag is invariant under any change to
the warning lists — only the `valid` flags and issues matter. -/
theorem C1_aggregate_verdict_law
    (info : Option ProbeInfo) (corr_rc : ℤ) (corr_stderr : String)
    (frame : Option FrameProbe) (audio : Option AudioProbe)
    (ts ts2 : List (String × CheckRes))
    (h : ts.map dropWarnings = ts2.map dropWarnings) :
    (comprehensive_validation info corr_rc corr_stderr frame audio).summary.all_tests_passed
      = ((comprehensive_validation info corr_rc corr_stderr frame audio).tests.all
          (fun t => t.2.valid))
    ∧ (summarize ts).all_tests_passed = (summarize ts2).all_tests_passed :=
  ⟨rfl, summarize_ignores_warnings ts ts2 h⟩

/-- Witness for C1 at a concrete run and a concrete pair of test lists
differing only in a warning. -/
theorem C1_aggregate_verdict_law_witness :
    (comprehensive_validation none 0 "" none none).summary.all_tests_passed
      = ((comprehensive_validation none 0 "" none none).tests.all (fun t => t.2.valid))
    ∧ (summarize
        [("sync", { valid := true, issues := [], warnings := [Msg.minorSync 1] })]).all_tests_passed
      = (summarize
        [("sync", { valid := true, issues := [], warnings := [] })]).all_tests_passed :=
  C1_aggregate_verdict_law none 0 "" none none
    [("sync", { valid := true, issues := [], warnings := [Msg.minorSync 1] })]
    [("sync", { valid := true, issues := [], warnings := [] })] rfl

/-- A codec warning is never a sync-difference warning. -/
theorem minorSync_not_in_codecWarnings (l : List StreamRec) (q : ℚ) :
    Msg.minorSync q ∉ l.filterMap (fun a =>
      if a.codec_name ∈ ["aac", "mp3", "opus", "vorbis"] then none
      else some (Msg.unusualAudioCodec a.codec_name)) := by
  simp only [List.mem_filterMap, not_exists]
  intro x
  split <;> simp

/-- Characterisation of the sync check when both a video and an audio
stream were probed: the issues are exactly the threshold-2 sync issue
and the warnings are the threshold-0.5 sync warning followed by the
codec warnings. -/
theorem sync_check_characterization (i : ProbeInfo) (v a : StreamRec)
    (vs as2 : List StreamRec)
    (hv : i.streams.filter (fun s => s.codec_type = "video") = v :: vs)
    (ha : i.streams.filter (fun s => s.codec_type = "audio") = a :: as2) :
    (check_audio_video_sync (some i)).issues
      = (if ratAbs (v.duration - a.duration) > 2
          then [Msg.syncMismatch (ratAbs (v.duration - a.duration))] else [])
    ∧ (check_audio_video_sync (some i)).warnings
      = (if ratAbs (v.duration - a.duration) > 2 then []
         else if ratAbs (v.duration - a.duration) > 1/2
          then [Msg.minorSync (ratAbs (v.duration - a.duration))] else [])
        ++ (a :: as2).filterMap (fun s =>
            if s.codec_name ∈ ["aac", "mp3", "opus", "vorbis"] then none
            else some (Msg.unusualAudioCodec s.codec_name)) := by
  constructor <;>
    (simp only [check_audio_video_sync, hv, ha, List.isEmpty_cons]
     split_ifs <;> simp_all)

/-- The sync check's `valid` flag is the emptiness of its issue list. -/
theorem sync_valid_iff (i : ProbeInfo) :
    (check_audio_video_sync (some i)).valid
      = (check_audio_video_sync (some i)).issues.isEmpty := rfl

/-- C2: when the probe reports both a video and an audio stream, the
sync check emits an issue exactly when the duration difference exceeds
2.0 s and a warning exactly when it exceeds 0.5 s but not 2.0 s; in
particular durations 120.0/121.8 give a warning with a passing check and
120.0/125.0 give an issue with a failing check. -/
theorem C2_sync_thresholds (i : ProbeInfo) (v a : StreamRec) (vs as2 : List StreamRec)
    (hv : i.streams.filter (fun s => s.codec_type = "video") = v :: vs)
    (ha : i.streams.filter (fun s => s.codec_type = "audio") = a :: as2) :
    ((∃ q, Msg.syncMismatch q ∈ (check_audio_video_sync (some i)).issues)
        ↔ |v.duration - a.duration| > 2)
    ∧ ((∃ q, Msg.minorSync q ∈ (check_audio_video_sync (some i)).warnings)
        ↔ (1/2 < |v.duration - a.duration| ∧ ¬ |v.duration - a.duration| > 2))
    ∧ (check_audio_video_sync
        (some ⟨[⟨"video", "h264", 120⟩, ⟨"audio", "aac", 121.8⟩]⟩)).valid = true
    ∧ Msg.minorSync (9/5) ∈ (check_audio_video_sync
        (some ⟨[⟨"video", "h264", 120⟩, ⟨"audio", "aac", 121.8⟩]⟩)).warnings
    ∧ (check_audio_video_sync
        (some ⟨[⟨"video", "h264", 120⟩, ⟨"audio", "aac", 121.8⟩]⟩)).issues = []
    ∧ (check_audio_video_sync
        (some ⟨[⟨"video", "h264", 120⟩, ⟨"audio", "aac", 125⟩]⟩)).valid = false
    ∧ Msg.syncMismatch 5 ∈ (check_audio_video_sync
        (some ⟨[⟨"video", "h264", 120⟩, ⟨"audio", "aac", 125⟩]⟩)).issues := by
  obtain ⟨hi, hw⟩ := sync_check_characterization i v a vs as2 hv ha
  have hdC : ratAbs ((120 : ℚ) - 121.8) = 9/5 := by norm_num [ratAbs]
  have hdD : ratAbs ((120 : ℚ) - 125) = 5 := by norm_num [ratAbs]
  obtain ⟨hiC, hwC⟩ := sync_check_characterization
    ⟨[⟨"video", "h264", 120⟩, ⟨"audio", "aac", 121.8⟩]⟩
    ⟨"video", "h264", 120⟩ ⟨"audio", "aac", 121.8⟩ [] [] (by simp) (by simp)
  obtain ⟨hiD, hwD⟩ := sync_check_characterization
    ⟨[⟨"video", "h264", 120⟩, ⟨"audio", "aac", 125⟩]⟩
    ⟨"video", "h264", 120⟩ ⟨"audio", "aac", 125⟩ [] [] (by simp) (by simp)
  simp only [hdC] at hiC hwC
  simp only [hdD] at hiD hwD
  rw [← ratAbs_eq_abs]
  refine ⟨?_, ?_, ?_, ?_, ?_, ?_, ?_⟩
  · rw [hi]
    by_cases h2 : ratAbs (v.duration - a.duration) > 2 <;> simp [h2]
  · rw [hw]
    by_cases h2 : ratAbs (v.duration - a.duration) > 2 <;>
      by_cases h05 : ratAbs (v.duration - a.duration) > 1/2 <;>
      simp [h2, h05, minorSync_not_in_codecWarnings (a :: as2)]
  · rw [sync_valid_iff, hiC]
    norm_num
  · rw [hwC]
    norm_num
  · rw [hiC]
    norm_num
  · rw [sync_valid_iff, hiD]
    norm_num
  · rw [hiD]
    norm_num

/-- Witness for C2 at a concrete probe with both streams present. -/
theorem C2_sync_thresholds_witness :
    ((∃ q, Msg.syncMismatch q ∈ (check_audio_video_sync
        (some ⟨[⟨"video", "h264", 120⟩, ⟨"audio", "aac", 125⟩]⟩)).issues)
      ↔ |(120 : ℚ) - 125| > 2) := by
  have h := C2_sync_thresholds ⟨[⟨"video", "h264", 120⟩, ⟨"audio", "aac", 125⟩]⟩
    ⟨"video", "h264", 120⟩ ⟨"audio", "aac", 125⟩ [] [] (by simp) (by simp)
  exact h.1

end ContinuousValidatorProofs

section ValidatorProofs

open VideoValidator HotstarDownloader

/-- C3: with zero audio streams probed, `validate_video_streams` records
the missing audio as a warning and not as an issue and still passes when
a video stream is present; and the downloader's post-remux validation
(the Scenario F path, after all separate audio tracks failed and a
video-only container was remuxed) raises no issue for the missing audio,
so the video-only container receives a passing verdict. -/
theorem C3_missing_audio_nonfatal
    (ss : List VStream) (hna : ss.any (fun s => s.codec_type = "audio") = false)
    (hv : ss.any (fun s => s.codec_type = "video") = true)
    (ms : List MStream) (mv : MStream) (fd : ℚ)
    (hma : ms.filter (fun s => s.codec_type = "audio") = [])
    (hmv : (ms.filter (fun s => s.codec_type = "video")).getLast? = some mv)
    (hfd : 1 ≤ fd) :
    (Msg.noAudioStream ∈ (validate_video_streams (some ss)).warnings
      ∧ Msg.noAudioStream ∉ (validate_video_streams (some ss)).issues
      ∧ (validate_video_streams (some ss)).valid = true)
    ∧ ((validate_merged_file (some ⟨ms, fd⟩)).valid = true
      ∧ (validate_merged_file (some ⟨ms, fd⟩)).audio_count = 0) := by
  constructor
  · simp only [validate_video_streams, hna, hv]
    refine ⟨by simp, by simp, by simp⟩
  · simp only [validate_merged_file, hma, hmv]
    rw [if_neg (not_lt.mpr hfd)]
    simp

/-- Witness for C3 on a concrete video-only container. -/
theorem C3_missing_audio_nonfatal_witness :
    (Msg.noAudioStream ∈ (validate_video_streams
        (some [⟨"video", "h264", false⟩])).warnings
      ∧ Msg.noAudioStream ∉ (validate_video_streams
        (some [⟨"video", "h264", false⟩])).issues
      ∧ (validate_video_streams (some [⟨"video", "h264", false⟩])).valid = true)
    ∧ ((validate_merged_file (some ⟨[⟨"video", "h264", 10⟩], 10⟩)).valid = true
      ∧ (validate_merged_file (some ⟨[⟨"video", "h264", 10⟩], 10⟩)).audio_count = 0) :=
  C3_missing_audio_nonfatal [⟨"video", "h264", false⟩] (by simp) (by simp)
    [⟨"video", "h264", 10⟩] ⟨"video", "h264", 10⟩ 10 (by simp) (by simp) (by norm_num)

/-- C10: a non-positive container format duration makes
`validate_duration` fail with the zero-or-negative issue, even with no
expected duration; and a total duration below 1 s makes the downloader's
post-merge validation fail with the file-too-short issue, so a file with
no measurable duration never receives a passing verdict. -/
theorem C10_zero_duration_never_passes
    (d : ℚ) (e : Option ℚ) (tp : ℚ) (p : MergedProbe)
    (hd : d ≤ 0) (hp : p.format_duration < 1) :
    ((validate_duration (some d) e tp).valid = false
      ∧ Msg.durationZeroOrNegative ∈ (validate_duration (some d) e tp).issues)
    ∧ ((validate_merged_file (some p)).valid = false
      ∧ MergedMsg.fileTooShort p.format_duration ∈ (validate_merged_file (some p)).issues) := by
  constructor
  · simp only [validate_duration]
    rw [if_pos (by exact_mod_cast hd : d ≤ 0)]
    simp
  · simp only [validate_merged_file]
    rw [if_pos hp]
    constructor
    · simp [List.isEmpty_iff]
    · simp

/-- Witness for C10 on a concrete zero-duration container. -/
theorem C10_zero_duration_never_passes_witness :
    ((validate_duration (some 0) none 5).valid = false
      ∧ Msg.durationZeroOrNegative ∈ (validate_duration (some 0) none 5).issues)
    ∧ ((validate_merged_file (some ⟨[], 0⟩)).valid = false
      ∧ MergedMsg.fileTooShort (MergedProbe.mk [] 0).format_duration
          ∈ (validate_merged_file (some ⟨[], 0⟩)).issues) :=
  C10_zero_duration_never_passes 0 none 5 ⟨[], 0⟩ le_rfl (by norm_num)

end ValidatorProofs

section AutoTesterProofs

open AutoTester

theorem runCycleAux_attempts_le :
    ∀ (l : List AttemptOutcome) (n : Nat) (disk : List String),
    (runCycleAux n l disk).attempts ≤ n - 1 + l.length := by
  intro l
  induction l with
  | nil => intro n disk; simp [runCycleAux]
  | cons o rest ih =>
    intro n disk
    cases o with
    | downloadFailed =>
      simp only [runCycleAux]
      split
      · simp only [List.length_cons]; omega
      · have := ih (n + 1) disk
        simp only [List.length_cons] at *
        omega
    | noArtifact =>
      simp only [runCycleAux]
      split
      · simp only [List.length_cons]; omega
      · have := ih (n + 1) disk
        simp only [List.length_cons] at *
        omega
    | validationPassed stem =>
      simp only [runCycleAux, List.length_cons]
      omega
    | validationFailed stem =>
      simp only [runCycleAux]
      split
      · simp only [List.length_cons]; omega
      · have := ih (n + 1) (disk ++ [renameFailed stem n])
        simp only [List.length_cons] at *
        omega

theorem runCycleAux_success :
    ∀ (l : List AttemptOutcome) (n : Nat) (disk : List String),
    (runCycleAux n l disk).success = l.any isPassed := by
  intro l
  induction l with
  | nil => intro n disk; simp [runCycleAux]
  | cons o rest ih =>
    intro n disk
    cases o with
    | downloadFailed =>
      simp only [runCycleAux, List.any_cons, isPassed, Bool.false_or]
      split
      · next he => simp [List.isEmpty_iff.mp he]
      · exact ih (n + 1) disk
    | noArtifact =>
      simp only [runCycleAux, List.any_cons, isPassed, Bool.false_or]
      split
      · next he => simp [List.isEmpty_iff.mp he]
      · exact ih (n + 1) disk
    | validationPassed stem =>
      simp [runCycleAux, isPassed]
    | validationFailed stem =>
      simp only [runCycleAux, List.any_cons, isPassed, Bool.false_or]
      split
      · next he => simp [List.isEmpty_iff.mp he]
      · exact ih (n + 1) (disk ++ [renameFailed stem n])

theorem runCycleAux_attempts_of_fail :
    ∀ (l : List AttemptOutcome) (n : Nat) (disk : List String),
    1 ≤ n → (runCycleAux n l disk).success = false →
    (runCycleAux n l disk).attempts = n - 1 + l.length := by
  intro l
  induction l with
  | nil => intro n disk _ _; simp [runCycleAux]
  | cons o rest ih =>
    intro n disk hn hs
    cases o with
    | downloadFailed =>
      simp only [runCycleAux] at hs ⊢
      split at hs <;> rename_i he
      · rw [if_pos he]
        have hre : rest = [] := List.isEmpty_iff.mp he
        subst hre
        simp only [List.length_cons, List.length_nil]
        omega
      · rw [if_neg he]
        have := ih (n + 1) disk (by omega) hs
        simp only [List.length_cons] at *
        omega
    | noArtifact =>
      simp only [runCycleAux] at hs ⊢
      split at hs <;> rename_i he
      · rw [if_pos he]
        have hre : rest = [] := List.isEmpty_iff.mp he
        subst hre
        simp only [List.length_cons, List.length_nil]
        omega
      · rw [if_neg he]
        have := ih (n + 1) disk (by omega) hs
        simp only [List.length_cons] at *
        omega
    | validationPassed stem => simp [runCycleAux] at hs
    | validationFailed stem =>
      simp only [runCycleAux] at hs ⊢
      split at hs <;> rename_i he
      · rw [if_pos he]
        have hre : rest = [] := List.isEmpty_iff.mp he
        subst hre
        simp only [List.length_cons, List.length_nil]
        omega
      · rw [if_neg he]
        have := ih (n + 1) (disk ++ [renameFailed stem n]) (by omega) hs
        simp only [List.length_cons] at *
        omega

/-- C4: for `max_retries = N` (the length of the outcome list) the
retry controller performs at most `N` attempts; the process exits with
code 0 exactly when some attempt produced a fully passing validation,
and with code 1 exactly when every attempt produced a non-passing
verdict, a download failure or a missing artifact — in which case all
`N` attempts were performed. -/
theorem C4_retry_bound_and_exit_codes (outcomes : List AttemptOutcome) :
    (run_test_cycle outcomes).attempts ≤ outcomes.length
    ∧ (exitCode outcomes = 0 ↔ ∃ o ∈ outcomes, isPassed o = true)
    ∧ (exitCode outcomes = 1 ↔ ∀ o ∈ outcomes, isPassed o = false)
    ∧ (exitCode outcomes = 1 → (run_test_cycle outcomes).attempts = outcomes.length) := by
  have h1 := runCycleAux_attempts_le outcomes 1 []
  have h2 := runCycleAux_success outcomes 1 []
  have h3 : exitCode outcomes = if outcomes.any isPassed then 0 else 1 := by
    unfold exitCode run_test_cycle
    rw [show (runCycleAux 1 outcomes []).success = outcomes.any isPassed from h2]
  refine ⟨by simpa [run_test_cycle] using h1, ?_, ?_, ?_⟩
  · rw [h3]
    cases hany : outcomes.any isPassed <;>
      simp_all [List.any_eq_true, List.any_eq_false]
  · rw [h3]
    cases hany : outcomes.any isPassed <;>
      simp_all [List.any_eq_true, List.any_eq_false]
  · intro hone
    have hs : (run_test_cycle outcomes).success = false := by
      revert hone
      unfold exitCode
      cases (run_test_cycle outcomes).success <;> simp
    have := runCycleAux_attempts_of_fail outcomes 1 [] le_rfl
      (by simpa [run_test_cycle] using hs)
    simpa [run_test_cycle] using this

/-- Witness for C4 on a concrete exhausted run, discharging the
exit-code-1 implication. -/
theorem C4_retry_bound_and_exit_codes_witness :
    (run_test_cycle [AttemptOutcome.downloadFailed]).attempts = 1 :=
  (C4_retry_bound_and_exit_codes [AttemptOutcome.downloadFailed]).2.2.2 (by rfl)

theorem runCycleAux_all_failed :
    ∀ (stems : List String) (s : String) (n : Nat) (disk : List String), 1 ≤ n →
    runCycleAux n ((s :: stems).map AttemptOutcome.validationFailed) disk
      = { success := false, disk := disk ++ failedDisk n (s :: stems),
          attempts := n - 1 + (s :: stems).length } := by
  intro stems
  induction stems with
  | nil =>
    intro s n disk hn
    simp only [List.map_cons, List.map_nil, runCycleAux, List.isEmpty_nil, if_true,
      failedDisk, List.length_cons, List.length_nil]
    refine congrArg _ ?_
    omega
  | cons s2 rest ih =>
    intro s n disk hn
    have step : runCycleAux n ((s :: s2 :: rest).map AttemptOutcome.validationFailed) disk
        = runCycleAux (n + 1) ((s2 :: rest).map AttemptOutcome.validationFailed)
            (disk ++ [renameFailed s n]) := by
      simp [runCycleAux]
    rw [step, ih s2 (n + 1) (disk ++ [renameFailed s n]) (by omega)]
    simp only [failedDisk, List.length_cons, List.append_assoc, List.singleton_append]
    refine congrArg _ ?_
    omega

/-- C5 counterexample: with `max_retries = 3` and three consecutive
failing validations the controller leaves only TWO renamed artifacts on
disk — the third failed attempt's artifact keeps its original name and
is never renamed, contradicting the claim that three renamed artifacts
exist. -/
theorem C5_rename_counterexample :
    (run_test_cycle
      [AttemptOutcome.validationFailed "a", AttemptOutcome.validationFailed "b",
       AttemptOutcome.validationFailed "c"]).disk
      = ["a_FAILED_attempt1.mp4", "b_FAILED_attempt2.mp4", "c.mp4"]
    ∧ ((run_test_cycle
      [AttemptOutcome.validationFailed "a", AttemptOutcome.validationFailed "b",
       AttemptOutcome.validationFailed "c"]).disk.countP isRenamedName) = 2
    ∧ "c.mp4" ∈ (run_test_cycle
      [AttemptOutcome.validationFailed "a", AttemptOutcome.validationFailed "b",
       AttemptOutcome.validationFailed "c"]).disk
    ∧ isRenamedName "c.mp4" = false := by
  refine ⟨by decide, by decide, by decide, by decide⟩

/-- C5 amended: after every failed attempt except the final one the
artifact is renamed with the attempt number embedded (and such renamed
artifacts persist, never deleted or overwritten), while the final failed
attempt's artifact keeps its original name; the controller reports
failure after performing every attempt. -/
theorem C5_amended_rename_on_retry (s : String) (stems : List String) :
    run_test_cycle ((s :: stems).map AttemptOutcome.validationFailed)
      = { success := false, disk := failedDisk 1 (s :: stems),
          attempts := (s :: stems).length } := by
  have := runCycleAux_all_failed stems s 1 [] le_rfl
  simpa [run_test_cycle] using this

end AutoTesterProofs

section ParserProofs

open HotstarDownloader

theorem mem_insertDesc (v u : Variant) (l : List Variant) :
    u ∈ insertDesc v l ↔ u = v ∨ u ∈ l := by
  induction l with
  | nil => simp [insertDesc]
  | cons w ws ih =>
    simp only [insertDesc]
    split
    · simp [List.mem_cons]
    · simp only [List.mem_cons, ih]
      tauto

theorem pairwise_insertDesc (v : Variant) (l : List Variant)
    (h : l.Pairwise (fun a b => b.bandwidth ≤ a.bandwidth)) :
    (insertDesc v l).Pairwise (fun a b => b.bandwidth ≤ a.bandwidth) := by
  induction l with
  | nil => simp [insertDesc]
  | cons w ws ih =>
    obtain ⟨hw, hws⟩ := List.pairwise_cons.mp h
    simp only [insertDesc]
    split
    · next hle =>
      refine List.Pairwise.cons ?_ h
      intro b hb
      rcases List.mem_cons.mp hb with rfl | hb
      · exact hle
      · exact le_trans (hw b hb) hle
    · next hgt =>
      refine List.Pairwise.cons ?_ (ih hws)
      intro b hb
      rcases (mem_insertDesc v b ws).mp hb with rfl | hb
      · omega
      · exact hw b hb

theorem pairwise_sortByBandwidthDesc (l : List Variant) :
    (sortByBandwidthDesc l).Pairwise (fun a b => b.bandwidth ≤ a.bandwidth) := by
  induction l with
  | nil => simp [sortByBandwidthDesc]
  | cons x l ih => exact pairwise_insertDesc x _ ih

theorem filter_insertDesc (b : Nat) (v : Variant) (l : List Variant) :
    (insertDesc v l).filter (fun u => u.bandwidth == b)
      = if v.bandwidth == b then v :: l.filter (fun u => u.bandwidth == b)
        else l.filter (fun u => u.bandwidth == b) := by
  induction l with
  | nil => simp only [insertDesc, List.filter_cons, List.filter_nil]
  | cons w ws ih =>
    simp only [insertDesc]
    split
    · next hle => simp [List.filter_cons]
    · next hgt =>
      simp only [List.filter_cons, ih]
      by_cases hv : (v.bandwidth == b) = true <;> by_cases hw : (w.bandwidth == b) = true
      · simp only [beq_iff_eq] at hv hw
        exact absurd (by omega) hgt
      · simp [hv, hw]
      · simp [hv, hw]
      · simp [hv, hw]

theorem filter_sortByBandwidthDesc (b : Nat) (l : List Variant) :
    (sortByBandwidthDesc l).filter (fun u => u.bandwidth == b)
      = l.filter (fun u => u.bandwidth == b) := by
  induction l with
  | nil => rfl
  | cons x l ih =>
    show (insertDesc x (sortByBandwidthDesc l)).filter _ = _
    rw [filter_insertDesc]
    by_cases hx : x.bandwidth == b <;> simp [hx, ih, List.filter_cons]

theorem pairwise_finalizeAudio (ats : List AudioTrack) (l : List Variant)
    (h : l.Pairwise (fun a b => b.bandwidth ≤ a.bandwidth)) :
    (finalizeAudio ats l).Pairwise (fun a b => b.bandwidth ≤ a.bandwidth) := by
  unfold finalizeAudio
  split
  · exact List.pairwise_map.mpr (h.imp (fun hab => hab))
  · exact h

theorem filter_finalizeAudio (ats : List AudioTrack) (b : Nat) (l : List Variant) :
    (finalizeAudio ats l).filter (fun u => u.bandwidth == b)
      = finalizeAudio ats (l.filter (fun u => u.bandwidth == b)) := by
  unfold finalizeAudio
  split
  · rw [List.filter_map]
    rfl
  · rfl

/-- C6: every parsed variant list is sorted by non-increasing bandwidth,
and the sort is stable — for every bandwidth value, the variants
carrying it appear in the same order as in the unsorted original
playlist extraction. -/
theorem C6_sort_invariant (content base_url : String) (vs raw : List Variant)
    (h1 : parse_master_playlist content base_url = some vs)
    (h2 : parsedUnsorted content base_url = some raw) :
    vs.Pairwise (fun a b => b.bandwidth ≤ a.bandwidth)
    ∧ ∀ b : Nat, vs.filter (fun u => u.bandwidth == b)
        = raw.filter (fun u => u.bandwidth == b) := by
  simp only [parse_master_playlist] at h1
  simp only [parsedUnsorted] at h2
  cases he : extractVariants
      (extractAudioTracks base_url.data (splitOnChar '\n' content.data)) base_url.data
      (splitOnChar '\n' content.data) with
  | none => rw [he] at h1; simp at h1
  | some raw0 =>
    rw [he] at h1 h2
    simp only [Option.map_some, Option.map_some', Option.some.injEq] at h1 h2
    subst h1
    subst h2
    constructor
    · exact pairwise_finalizeAudio _ _ (pairwise_sortByBandwidthDesc raw0)
    · intro b
      rw [filter_finalizeAudio, filter_finalizeAudio, filter_sortByBandwidthDesc]

/-- Witness for C6 on a concrete playlist with a bandwidth tie. -/
theorem C6_sort_invariant_witness :
    ((parse_master_playlist
        "#EXT-X-STREAM-INF:BANDWIDTH=3000000\na.m3u8\n#EXT-X-STREAM-INF:BANDWIDTH=8000000\nb.m3u8\n#EXT-X-STREAM-INF:BANDWIDTH=3000000\nc.m3u8"
        "https://x/y/").elim [] id).Pairwise (fun a b => b.bandwidth ≤ a.bandwidth) := by
  have h := C6_sort_invariant
    "#EXT-X-STREAM-INF:BANDWIDTH=3000000\na.m3u8\n#EXT-X-STREAM-INF:BANDWIDTH=8000000\nb.m3u8\n#EXT-X-STREAM-INF:BANDWIDTH=3000000\nc.m3u8"
    "https://x/y/"
    [⟨"https://x/y/b.m3u8", 8000000, "unknown", "unknown", 25, []⟩,
     ⟨"https://x/y/a.m3u8", 3000000, "unknown", "unknown", 25, []⟩,
     ⟨"https://x/y/c.m3u8", 3000000, "unknown", "unknown", 25, []⟩]
    [⟨"https://x/y/a.m3u8", 3000000, "unknown", "unknown", 25, []⟩,
     ⟨"https://x/y/b.m3u8", 8000000, "unknown", "unknown", 25, []⟩,
     ⟨"https://x/y/c.m3u8", 3000000, "unknown", "unknown", 25, []⟩]
    (by decide) (by decide)
  rw [show parse_master_playlist
        "#EXT-X-STREAM-INF:BANDWIDTH=3000000\na.m3u8\n#EXT-X-STREAM-INF:BANDWIDTH=8000000\nb.m3u8\n#EXT-X-STREAM-INF:BANDWIDTH=3000000\nc.m3u8"
        "https://x/y/"
      = some [⟨"https://x/y/b.m3u8", 8000000, "unknown", "unknown", 25, []⟩,
        ⟨"https://x/y/a.m3u8", 3000000, "unknown", "unknown", 25, []⟩,
        ⟨"https://x/y/c.m3u8", 3000000, "unknown", "unknown", 25, []⟩] from by decide]
  exact h.1

/-- C7 counterexample: an audio-track declaration without a `LANGUAGE`
attribute receives the default language tag `"und"`, not the literal
`"undetermined"` the claim states. -/
theorem C7_language_default_counterexample :
    parse_master_playlist
      "#EXT-X-MEDIA:TYPE=AUDIO,GROUP-ID=\"aud\",URI=\"a.m3u8\"\n#EXT-X-STREAM-INF:BANDWIDTH=100,AUDIO=\"aud\"\nv.m3u8"
      "https://x/"
      = some [⟨"https://x/v.m3u8", 100, "unknown", "unknown", 25,
          [⟨"https://x/a.m3u8", "aud", "Unknown", "und"⟩]⟩]
    ∧ ("und" : String) ≠ "undetermined" :=
  ⟨by decide, by decide⟩

/-- C7 amended: a stream-variant line missing an attribute never makes
parsing fail and receives the documented default — bandwidth 0,
resolution "unknown", codecs "unknown", frame rate 25.0 — and an
audio-track declaration without a `LANGUAGE` attribute receives the
default language tag `"und"` (the standard tag for an undetermined
language), not the literal string `"undetermined"`. -/
theorem C7_amended_parser_fallbacks (ats : List AudioTrack)
    (base line url aline : List Char) :
    (∀ v, mkVariant ats base line url = some v →
      (searchDigits ("BANDWIDTH=".data) line = none → v.bandwidth = 0)
      ∧ (searchRes line = none → v.resolution = "unknown")
      ∧ (searchQuoted ("CODECS=\"".data) line = none → v.codecs = "unknown")
      ∧ (searchFrac ("FRAME-RATE=".data) line = none → v.frame_rate = 25))
    ∧ (searchFrac ("FRAME-RATE=".data) line = none →
        ∃ v, mkVariant ats base line url = some v)
    ∧ (∀ t ∈ extractAudioTracks base [aline],
        searchQuoted ("LANGUAGE=\"".data) aline = none → t.language = "und") := by
  refine ⟨?_, ?_, ?_⟩
  · intro v hv
    simp only [mkVariant] at hv
    split at hv
    · exact absurd hv (by simp)
    · next frv hfr =>
      replace hv := Option.some.inj hv
      subst hv
      refine ⟨?_, ?_, ?_, ?_⟩
      · intro hb; simp [hb]
      · intro hb; simp [hb]
      · intro hb; simp [hb]
      · intro hb
        rw [hb] at hfr
        simp only [Option.some.injEq] at hfr
        simp [← hfr]
  · intro hfr
    simp only [mkVariant, hfr]
    exact ⟨_, rfl⟩
  · intro t ht hlang
    simp only [extractAudioTracks, List.filterMap_cons, List.filterMap_nil] at ht
    split at ht
    · simp at ht
    · next b heq =>
      rw [List.mem_singleton] at ht
      subst ht
      split at heq
      · split at heq
        · simp at heq
        · next uri huri =>
          replace heq := Option.some.inj heq
          subst heq
          simp [hlang]
      · simp at heq

/-- Witness for C7 amended on a concrete attribute-free declaration. -/
theorem C7_amended_parser_fallbacks_witness :
    (∃ v, mkVariant [] ("https://x/".data) ("#EXT-X-STREAM-INF:".data)
        ("v.m3u8".data) = some v)
    ∧ (∀ t ∈ extractAudioTracks ("https://x/".data)
          [("#EXT-X-MEDIA:TYPE=AUDIO,URI=\"a.m3u8\"".data)],
        searchQuoted ("LANGUAGE=\"".data)
          ("#EXT-X-MEDIA:TYPE=AUDIO,URI=\"a.m3u8\"".data) = none →
        t.language = "und") :=
  ⟨(C7_amended_parser_fallbacks [] ("https://x/".data) ("#EXT-X-STREAM-INF:".data)
      ("v.m3u8".data) ("#EXT-X-MEDIA:TYPE=AUDIO,URI=\"a.m3u8\"".data)).2.1 (by decide),
   (C7_amended_parser_fallbacks [] ("https://x/".data) ("#EXT-X-STREAM-INF:".data)
      ("v.m3u8".data) ("#EXT-X-MEDIA:TYPE=AUDIO,URI=\"a.m3u8\"".data)).2.2⟩

/-- C8 counterexample: a stream-variant declaration whose immediately
following line is a comment yields NO variant at all — the parser does
not look further for the next non-comment line, so the URL two lines
down is never paired with the declaration. -/
theorem C8_next_line_counterexample :
    parse_master_playlist "#EXT-X-STREAM-INF:BANDWIDTH=100\n# comment\nv.m3u8"
      "https://cdn.example/master/" = some [] := by decide

/-- C8 amended: a stream-variant declaration is paired only with the
line immediately following it: when that line, stripped, is non-empty
and not a comment, exactly one variant for the pair is emitted;
otherwise (empty or comment next line) the declaration is dropped and no
variant is emitted for it. -/
theorem C8_amended_immediate_next_line (ats : List AudioTrack) (base line nxt : List Char)
    (rest : List (List Char)) (v : Variant)
    (hs : startsWithChars ("#EXT-X-STREAM-INF:".data) line = true) :
    (pyStrip nxt ≠ [] → startsWithChars ("#".data) (pyStrip nxt) = false →
      mkVariant ats base line (pyStrip nxt) = some v →
      extractVariants ats base (line :: nxt :: rest)
        = (extractVariants ats base (nxt :: rest)).map (fun vs => v :: vs))
    ∧ (pyStrip nxt = [] →
      extractVariants ats base (line :: nxt :: rest)
        = extractVariants ats base (nxt :: rest))
    ∧ (startsWithChars ("#".data) (pyStrip nxt) = true →
      extractVariants ats base (line :: nxt :: rest)
        = extractVariants ats base (nxt :: rest)) := by
  refine ⟨?_, ?_, ?_⟩
  · intro h1 h2 h3
    simp only [extractVariants, hs, if_true]
    rw [if_pos ⟨h1, by simp [h2]⟩, h3]
  · intro h1
    simp only [extractVariants, hs, if_true]
    rw [if_neg (by simp [h1])]
  · intro h2
    simp only [extractVariants, hs, if_true]
    rw [if_neg (by simp [h2])]

/-- Witness for C8 amended on a concrete declaration/URL pair. -/
theorem C8_amended_immediate_next_line_witness :
    extractVariants [] ("https://x/".data)
        [("#EXT-X-STREAM-INF:BANDWIDTH=5".data), ("v.m3u8".data)]
      = (extractVariants [] ("https://x/".data) [("v.m3u8".data)]).map
          (fun vs => (⟨"https://x/v.m3u8", 5, "unknown", "unknown", 25, []⟩ : Variant) :: vs) :=
  (C8_amended_immediate_next_line [] ("https://x/".data)
      ("#EXT-X-STREAM-INF:BANDWIDTH=5".data) ("v.m3u8".data) []
      ⟨"https://x/v.m3u8", 5, "unknown", "unknown", 25, []⟩ (by decide)).1
    (by decide) (by decide) (by decide)

/-- C9: in the separate-audio acquisition branch, a non-zero video exit
code aborts the whole attempt (reported failed, no remux attempted),
whereas audio-track failures never abort — the remux step is always
reached with exactly the audio tracks whose acquisition exited 0, the
failing tracks being dropped from the merge set. -/
theorem C9_audio_failure_degrades (video_exit : ℤ) (audio_results : List AudioDl)
    (merge_exit : ℤ) (merge_probe : Option MergedProbe) :
    (video_exit ≠ 0 →
      download_with_ffmpeg_separate video_exit audio_results merge_exit merge_probe
        = { succeeded := false, merged_audio := [], merge_attempted := false })
    ∧ (video_exit = 0 →
      (download_with_ffmpeg_separate video_exit audio_results
          merge_exit merge_probe).merge_attempted = true
      ∧ (download_with_ffmpeg_separate video_exit audio_results
          merge_exit merge_probe).merged_audio
        = (audio_results.filter (fun a => a.exit_code = 0)).map (fun a => a.language)) := by
  constructor
  · intro h
    simp [download_with_ffmpeg_separate, h]
  · intro h
    subst h
    by_cases hm : merge_exit = 0 <;>
      simp [download_with_ffmpeg_separate, hm]

/-- Witness for C9: a failed video acquisition aborts, while with the
video acquired the failing track "hin" is dropped and the succeeding
track "tam" is merged. -/
theorem C9_audio_failure_degrades_witness :
    download_with_ffmpeg_separate 1 [⟨"hin", 1⟩] 0 none
      = { succeeded := false, merged_audio := [], merge_attempted := false }
    ∧ (download_with_ffmpeg_separate 0 [⟨"hin", 1⟩, ⟨"tam", 0⟩] 0 none).merged_audio
      = ["tam"] := by
  constructor
  · exact (C9_audio_failure_degrades 1 [⟨"hin", 1⟩] 0 none).1 (by decide)
  · rw [((C9_audio_failure_degrades 0 [⟨"hin", 1⟩, ⟨"tam", 0⟩] 0 none).2 rfl).2]
    decide

end ParserProofs
